import Mathlib

/-!
Verification of the orchestrator module (`.supremepower/orchestrator.py`).

Strings are embedded as `List Char`; numbers as `ℚ` (the decimal literals
0.5, 0.9 and the configured threshold are represented exactly).  The JSON
configuration is embedded as the inductive `JVal`, and Python subscript
lookup together with its failure modes (KeyError on a missing dict key,
TypeError on subscripting a non-dict or comparing a float with a
non-number) is embedded with `Except PyErr`.
-/

/-- ASCII lowercasing of one character, the action of Python `str.lower`
on the ASCII range: codepoints 65–90 are shifted by 32, all others kept. -/
def lowerChar (c : Char) : Char :=
  if 65 ≤ c.toNat ∧ c.toNat ≤ 90 then Char.ofNat (c.toNat + 32) else c

/-- Lowercasing of a whole string, as in `task_description.lower()`. -/
def lowerStr (s : List Char) : List Char := s.map lowerChar

/-- Boolean prefix test on character lists (helper for substring containment). -/
def isPrefixOfCL : List Char → List Char → Bool
  | [], _ => true
  | _ :: _, [] => false
  | a :: as, b :: bs => a == b && isPrefixOfCL as bs

/-- Python substring containment `pat in s`: some suffix of `s` starts with `pat`. -/
def containsSub (pat : List Char) : List Char → Bool
  | [] => isPrefixOfCL pat []
  | s@(_ :: rest) => isPrefixOfCL pat s || containsSub pat rest

/-- The first keyword token checked by the heuristic. -/
def archTok : List Char := "architect".data

/-- The second keyword token checked by the heuristic. -/
def sysTok : List Char := "system".data

/-- Embedding of `analyze_complexity`: 0.9 when the lowercased task
contains "architect" or "system", 0.5 otherwise. -/
def analyze_complexity (task_description : List Char) : ℚ :=
  if containsSub archTok (lowerStr task_description)
      || containsSub sysTok (lowerStr task_description) then
    9/10
  else
    1/2

/-- Embedding of a loaded JSON document (the parsed `config.json`). -/
inductive JVal : Type
  | null : JVal
  | bool : Bool → JVal
  | num : ℚ → JVal
  | str : List Char → JVal
  | arr : List JVal → JVal
  | obj : List (String × JVal) → JVal

/-- The two Python exceptions the lookup-and-compare path can raise. -/
inductive PyErr : Type
  | keyError : PyErr
  | typeError : PyErr
  deriving DecidableEq

/-- Python subscript `v[k]` with a string key: a dict yields its entry or
raises KeyError; any non-dict value raises TypeError. -/
def JVal.getKey : JVal → String → Except PyErr JVal
  | .obj fs, k =>
    match fs.lookup k with
    | some v => .ok v
    | none => .error .keyError
  | _, _ => .error .typeError

/-- Numeric reading of a JSON value for the comparison
`complexity >= threshold`: numbers are themselves, Python booleans compare
as 0/1, anything else raises TypeError. -/
def JVal.asNum : JVal → Except PyErr ℚ
  | .num q => .ok q
  | .bool b => .ok (if b then 1 else 0)
  | _ => .error .typeError

/-- The chained lookup `config['agents']['master_architect']['complexity_threshold']`. -/
def thresholdLookup (config : JVal) : Except PyErr JVal := do
  let a ← config.getKey "agents"
  let m ← a.getKey "master_architect"
  m.getKey "complexity_threshold"

/-- The threshold actually used in the comparison: the chained lookup
followed by the numeric reading. -/
def getThreshold (config : JVal) : Except PyErr ℚ := do
  let v ← thresholdLookup config
  v.asNum

/-- The line printed on the high-complexity branch. -/
def activationLine : String := "Activating Master Architect for high-complexity task."

/-- The line printed on the standard branch. -/
def standardLine : String := "Task complexity standard. Using default agent."

/-- Embedding of `orchestrate`: the loaded configuration is a parameter
(the file read itself is external input); the result is the printed branch
line paired with the returned label, or the uncaught exception. -/
def orchestrate (config : JVal) (task : List Char) : Except PyErr (String × String) := do
  let threshold ← getThreshold config
  if analyze_complexity task ≥ threshold then
    .ok (activationLine, "master_architect")
  else
    .ok (standardLine, "default")

/-- Embedding of the `__main__` block: given the loaded configuration and
the argument vector (program name first), the list of lines printed to
standard output, or the uncaught exception. With no positional argument
nothing runs and nothing is printed. -/
def main_model (config : JVal) : List (List Char) → Except PyErr (List String)
  | _ :: task :: _ =>
    match orchestrate config task with
    | .ok (line, agent) => .ok [line, "Orchestrator decision: " ++ agent]
    | .error e => .error e
  | _ => .ok []

/-- The decision function exactly as the specification words it in §4.1:
score 0.9 when the lowercase of the task contains "architect" or "system",
else 0.5; label by the inclusive comparison `score >= threshold`. -/
def decide_spec (task_description : List Char) (threshold : ℚ) : String :=
  let score : ℚ :=
    if containsSub archTok (lowerStr task_description)
        || containsSub sysTok (lowerStr task_description) then 9/10 else 1/2
  if score ≥ threshold then "master_architect" else "default"

/-- A well-formed configuration carrying threshold `q`, used as concrete input. -/
def cfgAt (q : ℚ) : JVal :=
  .obj [("agents", .obj [("master_architect", .obj [("complexity_threshold", .num q)])])]

/-- A configuration whose key path is fully present but whose threshold
value is a JSON string, not a number. -/
def cfgBadType : JVal :=
  .obj [("agents", .obj [("master_architect",
    .obj [("complexity_threshold", .str "high".data)])])]

/-- A configuration whose innermost dict lacks `complexity_threshold`. -/
def cfgMissing : JVal :=
  .obj [("agents", .obj [("master_architect", .obj [])])]

/-- A second well-formed configuration with threshold 1/2 but extra keys,
syntactically different from `cfgAt (1/2)`. -/
def cfgExtra : JVal :=
  .obj [("version", .num 2),
        ("agents", .obj [("master_architect",
          .obj [("complexity_threshold", .num (1/2)), ("model", .str "x".data)])])]

/-- Whether the key path `agents.master_architect.complexity_threshold`
is present, regardless of the type of the value found there. -/
def hasThresholdKey (config : JVal) : Bool :=
  match thresholdLookup config with
  | .ok _ => true
  | .error _ => false

theorem toNat_ofNat_valid (n : Nat) (h : n < 0xd800) : (Char.ofNat n).toNat = n := by
  simp [Char.ofNat, Nat.isValidChar, h, Char.ofNatAux, Char.toNat, UInt32.toNat,
    BitVec.toNat_ofNatLt]

theorem lowerChar_idem (c : Char) : lowerChar (lowerChar c) = lowerChar c := by
  unfold lowerChar
  by_cases h : 65 ≤ c.toNat ∧ c.toNat ≤ 90
  · simp only [if_pos h]
    have hv : (Char.ofNat (c.toNat + 32)).toNat = c.toNat + 32 :=
      toNat_ofNat_valid _ (by omega)
    rw [if_neg]
    rw [hv]; omega
  · simp only [if_neg h]

theorem lowerStr_idem (s : List Char) : lowerStr (lowerStr s) = lowerStr s := by
  unfold lowerStr
  rw [List.map_map]
  exact List.map_congr_left fun c _ => lowerChar_idem c

theorem orchestrate_ok (config : JVal) (task : List Char) (q : ℚ)
    (h : getThreshold config = .ok q) :
    orchestrate config task =
      if analyze_complexity task ≥ q then .ok (activationLine, "master_architect")
      else .ok (standardLine, "default") := by
  unfold orchestrate
  rw [h]
  rfl

theorem orchestrate_err (config : JVal) (task : List Char) (e : PyErr)
    (h : getThreshold config = .error e) :
    orchestrate config task = .error e := by
  unfold orchestrate
  rw [h]
  rfl

theorem main_model_cons (config : JVal) (prog task : List Char) (rest : List (List Char))
    (line agent : String) (h : orchestrate config task = .ok (line, agent)) :
    main_model config (prog :: task :: rest) = .ok [line, "Orchestrator decision: " ++ agent] := by
  simp only [main_model]
  rw [h]

/-- C1: for every task string and every numeric threshold, the decision of
`orchestrate` is exactly the one the specification formula computes:
score 0.9 when the lowercased task contains "architect" or "system", else
0.5, then "master_architect" iff score >= threshold. -/
theorem C1_decision_formula (config : JVal) (task : List Char) (q : ℚ)
    (h : getThreshold config = .ok q) :
    (orchestrate config task).map Prod.snd = .ok (decide_spec task q) := by
  have hd : decide_spec task q
      = if analyze_complexity task ≥ q then "master_architect" else "default" := rfl
  rw [orchestrate_ok config task q h, hd]
  by_cases hge : analyze_complexity task ≥ q
  · rw [if_pos hge, if_pos hge]; rfl
  · rw [if_neg hge, if_neg hge]; rfl

theorem C1_witness :
    (orchestrate (cfgAt (9/10)) "hi".data).map Prod.snd = .ok (decide_spec "hi".data (9/10)) :=
  C1_decision_formula (cfgAt (9/10)) "hi".data (9/10) rfl

/-- C2: the threshold comparison is inclusive: whenever the computed score
equals the configured threshold exactly, the high-complexity branch is
chosen. Its witness instantiates the empty string at threshold 1/2. -/
theorem C2_inclusive_boundary (config : JVal) (task : List Char) (q : ℚ)
    (h : getThreshold config = .ok q) (hs : analyze_complexity task = q) :
    orchestrate config task = .ok (activationLine, "master_architect") := by
  rw [orchestrate_ok config task q h, hs, if_pos le_rfl]

theorem C2_witness :
    analyze_complexity [] = 1/2 ∧
    orchestrate (cfgAt (1/2)) [] = .ok (activationLine, "master_architect") :=
  ⟨rfl, C2_inclusive_boundary (cfgAt (1/2)) [] (1/2) rfl rfl⟩

/-- C3: for every string containing "architect" or "system"
case-insensitively and every threshold at most 9/10, the decision is
"master_architect". -/
theorem C3_keyword_low_threshold (config : JVal) (task : List Char) (q : ℚ)
    (h : getThreshold config = .ok q) (hq : q ≤ 9/10)
    (ht : (containsSub archTok (lowerStr task) || containsSub sysTok (lowerStr task)) = true) :
    (orchestrate config task).map Prod.snd = .ok "master_architect" := by
  have ha : analyze_complexity task = 9/10 := by
    unfold analyze_complexity
    rw [if_pos ht]
  rw [orchestrate_ok config task q h, ha, if_pos hq]
  rfl

theorem C3_witness :
    (orchestrate (cfgAt (9/10)) "Design the system architecture".data).map Prod.snd
      = .ok "master_architect" :=
  C3_keyword_low_threshold (cfgAt (9/10)) "Design the system architecture".data (9/10)
    rfl le_rfl rfl

/-- C4: for every string containing neither token case-insensitively, the
decision is "master_architect" whenever the threshold is at most 1/2, and
"default" for every threshold above 1/2. -/
theorem C4_no_keyword (config : JVal) (task : List Char) (q : ℚ)
    (h : getThreshold config = .ok q)
    (ht : (containsSub archTok (lowerStr task) || containsSub sysTok (lowerStr task)) = false) :
    (q ≤ 1/2 → (orchestrate config task).map Prod.snd = .ok "master_architect") ∧
    (1/2 < q → (orchestrate config task).map Prod.snd = .ok "default") := by
  have ha : analyze_complexity task = 1/2 := by
    unfold analyze_complexity
    rw [ht]
    rfl
  rw [orchestrate_ok config task q h, ha]
  constructor
  · intro hq
    rw [if_pos hq]
    rfl
  · intro hq
    rw [if_neg (not_le.mpr hq)]
    rfl

theorem C4_witness :
    (orchestrate (cfgAt (1/2)) "fix typo in readme".data).map Prod.snd
      = .ok "master_architect" ∧
    (orchestrate (cfgAt (7/10)) "fix typo in readme".data).map Prod.snd
      = .ok "default" :=
  ⟨(C4_no_keyword (cfgAt (1/2)) "fix typo in readme".data (1/2) rfl rfl).1 le_rfl,
   (C4_no_keyword (cfgAt (7/10)) "fix typo in readme".data (7/10) rfl rfl).2 (by norm_num)⟩

/-- C5: scoring is invariant under letter case: any two strings with the
same lowercasing get the same score, every string scores the same as its
lowercase form, and "Architect", "ARCHITECT", "architect" all score 9/10. -/
theorem C5_case_invariance :
    (∀ s t : List Char, lowerStr s = lowerStr t →
      analyze_complexity s = analyze_complexity t) ∧
    (∀ s : List Char, analyze_complexity s = analyze_complexity (lowerStr s)) ∧
    analyze_complexity "Architect".data = 9/10 ∧
    analyze_complexity "ARCHITECT".data = 9/10 ∧
    analyze_complexity "architect".data = 9/10 := by
  refine ⟨fun s t hst => ?_, fun s => ?_, rfl, rfl, rfl⟩
  · unfold analyze_complexity
    rw [hst]
  · unfold analyze_complexity
    rw [lowerStr_idem]

theorem C5_witness :
    analyze_complexity "ARCHITECT".data = analyze_complexity "architect".data :=
  C5_case_invariance.1 "ARCHITECT".data "architect".data rfl

/-- C6: the score is always one of 1/2 and 9/10, and under a well-formed
configuration the decision is always one of the two fixed labels. -/
theorem C6_two_valued (config : JVal) (task : List Char) (q : ℚ)
    (h : getThreshold config = .ok q) :
    (analyze_complexity task = 1/2 ∨ analyze_complexity task = 9/10) ∧
    ((orchestrate config task).map Prod.snd = .ok "master_architect" ∨
     (orchestrate config task).map Prod.snd = .ok "default") := by
  constructor
  · unfold analyze_complexity
    by_cases hb : (containsSub archTok (lowerStr task)
        || containsSub sysTok (lowerStr task)) = true
    · right
      rw [if_pos hb]
    · left
      rw [if_neg hb]
  · rw [orchestrate_ok config task q h]
    by_cases hge : analyze_complexity task ≥ q
    · left
      rw [if_pos hge]
      rfl
    · right
      rw [if_neg hge]
      rfl

theorem C6_witness :
    (analyze_complexity "hello".data = 1/2 ∨ analyze_complexity "hello".data = 9/10) ∧
    ((orchestrate (cfgAt (9/10)) "hello".data).map Prod.snd = .ok "master_architect" ∨
     (orchestrate (cfgAt (9/10)) "hello".data).map Prod.snd = .ok "default") :=
  C6_two_valued (cfgAt (9/10)) "hello".data (9/10) rfl

/-- C7 as stated is false on the code: a configuration whose key path
`agents.master_architect.complexity_threshold` is fully present but holds
a JSON string makes the comparison raise a type error, so presence of the
key path alone does not guarantee a decision. -/
theorem C7_counterexample :
    ¬ ∀ (config : JVal) (task : List Char),
        Except.isOk (orchestrate config task) = hasThresholdKey config := by
  intro hAll
  have h1 := hAll cfgBadType []
  rw [orchestrate_err cfgBadType [] .typeError rfl] at h1
  have h2 : hasThresholdKey cfgBadType = true := rfl
  rw [h2] at h1
  exact Bool.noConfusion h1

/-- C7 amended: `orchestrate` returns a decision if and only if the
threshold lookup succeeds with a numeric value, and whenever the key-path
lookup fails with a key error the run fails with that key error. -/
theorem C7_raise_iff (config : JVal) (task : List Char) :
    (Except.isOk (orchestrate config task) = Except.isOk (getThreshold config)) ∧
    (thresholdLookup config = .error .keyError →
      orchestrate config task = .error .keyError) := by
  constructor
  · cases hq : getThreshold config with
    | ok q =>
      rw [orchestrate_ok config task q hq]
      by_cases hge : analyze_complexity task ≥ q
      · rw [if_pos hge]
        rfl
      · rw [if_neg hge]
        rfl
    | error e =>
      rw [orchestrate_err config task e hq]
      rfl
  · intro hk
    have hq : getThreshold config = .error .keyError := by
      unfold getThreshold
      rw [hk]
      rfl
    exact orchestrate_err config task .keyError hq

theorem C7_witness :
    orchestrate cfgMissing [] = .error .keyError :=
  (C7_raise_iff cfgMissing []).2 rfl

/-- C8: with no positional argument the program prints nothing and ends
normally, whatever the configuration; with a task argument under a
well-formed configuration it prints exactly the branch line followed by
the final line "Orchestrator decision: " with the chosen label. -/
theorem C8_cli_output (config noargCfg : JVal) (q : ℚ) (prog task : List Char)
    (rest : List (List Char)) (h : getThreshold config = .ok q) :
    main_model noargCfg [prog] = .ok [] ∧
    ∃ line agent, orchestrate config task = .ok (line, agent) ∧
      main_model config (prog :: task :: rest)
        = .ok [line, "Orchestrator decision: " ++ agent] := by
  refine ⟨rfl, ?_⟩
  by_cases hge : analyze_complexity task ≥ q
  · have hok : orchestrate config task = .ok (activationLine, "master_architect") := by
      rw [orchestrate_ok config task q h, if_pos hge]
    exact ⟨activationLine, "master_architect", hok,
      main_model_cons config prog task rest activationLine "master_architect" hok⟩
  · have hok : orchestrate config task = .ok (standardLine, "default") := by
      rw [orchestrate_ok config task q h, if_neg hge]
    exact ⟨standardLine, "default", hok,
      main_model_cons config prog task rest standardLine "default" hok⟩

theorem C8_witness :
    main_model (cfgAt (9/10)) ["orchestrator.py".data] = .ok [] ∧
    ∃ line agent,
      orchestrate (cfgAt (9/10)) "Design the system architecture".data = .ok (line, agent) ∧
      main_model (cfgAt (9/10))
          ["orchestrator.py".data, "Design the system architecture".data]
        = .ok [line, "Orchestrator decision: " ++ agent] :=
  C8_cli_output (cfgAt (9/10)) (cfgAt (9/10)) (9/10) "orchestrator.py".data
    "Design the system architecture".data [] rfl

/-- C9: the decision depends on the configuration only through the single
value at `agents.master_architect.complexity_threshold`: two
configurations carrying the same threshold produce identical runs on
every task (and the score itself takes no configuration input at all). -/
theorem C9_threshold_noninterference (c1 c2 : JVal) (task : List Char) (q : ℚ)
    (h1 : getThreshold c1 = .ok q) (h2 : getThreshold c2 = .ok q) :
    orchestrate c1 task = orchestrate c2 task := by
  rw [orchestrate_ok c1 task q h1, orchestrate_ok c2 task q h2]

theorem C9_witness :
    orchestrate (cfgAt (1/2)) "hello".data = orchestrate cfgExtra "hello".data :=
  C9_threshold_noninterference (cfgAt (1/2)) cfgExtra "hello".data (1/2) rfl rfl

/-- C10: the printed branch line always matches the returned label: the
activation line goes exactly with "master_architect" and the standard
line exactly with "default". -/
theorem C10_line_matches_label (config : JVal) (task : List Char) (line agent : String)
    (h : orchestrate config task = .ok (line, agent)) :
    (line = activationLine ↔ agent = "master_architect") ∧
    (line = standardLine ↔ agent = "default") := by
  cases hq : getThreshold config with
  | error e =>
    rw [orchestrate_err config task e hq] at h
    exact Except.noConfusion h
  | ok q =>
    rw [orchestrate_ok config task q hq] at h
    by_cases hge : analyze_complexity task ≥ q
    · rw [if_pos hge] at h
      obtain ⟨hl, ha⟩ := Prod.mk.injEq .. ▸ Except.ok.inj h
      subst hl
      subst ha
      refine ⟨by simp, ?_⟩
      constructor
      · intro hcontra
        exact absurd hcontra (by decide)
      · intro hcontra
        exact absurd hcontra (by decide)
    · rw [if_neg hge] at h
      obtain ⟨hl, ha⟩ := Prod.mk.injEq .. ▸ Except.ok.inj h
      subst hl
      subst ha
      refine ⟨?_, by simp⟩
      constructor
      · intro hcontra
        exact absurd hcontra (by decide)
      · intro hcontra
        exact absurd hcontra (by decide)

theorem C10_witness :
    (activationLine = activationLine ↔ "master_architect" = "master_architect") ∧
    (activationLine = standardLine ↔ "master_architect" = "default") :=
  C10_line_matches_label (cfgAt (1/2)) [] activationLine "master_architect"
    (by rw [orchestrate_ok (cfgAt (1/2)) [] (1/2) rfl]
        have ha : analyze_complexity ([] : List Char) = 1/2 := rfl
        rw [ha, if_pos le_rfl])
